import Mathlib

set_option maxRecDepth 40000

/-!
Shallow embedding of `renderer.py` from the ArticleRender repository
(`ArticleValidator` + `HtmlRenderer` + `render_article`), together with
proofs checking the natural-language specification against it.

Python strings are modelled as `List Char`; Python JSON-like values as
the mutual inductives `PyVal` / `PyList` / `PyDict` (dictionary keys are
Python strings, matching the `Dict[str, Any]` annotations in the source).
Fallible Python operations (attribute errors, `int()` conversion errors,
iterating a non-iterable) are modelled with `Except (List Char) _`, the
error value carrying the exception message `str(e)`.

Naming: where Lean allows it the source's names are kept with the
leading underscore dropped (`_normalize_text` → `normalize_text`,
`_render_block` → `render_block`, `_escape` → `escape`, ...).
-/

mutual
/-- A Python value as it appears in a parsed-JSON article or image table. -/
inductive PyVal : Type where
  | none : PyVal
  | bool : Bool → PyVal
  | int : Int → PyVal
  | str : List Char → PyVal
  | list : PyList → PyVal
  | dict : PyDict → PyVal

/-- A Python list of `PyVal`s (spelled out so recursion stays structural). -/
inductive PyList : Type where
  | nil : PyList
  | cons : PyVal → PyList → PyList

/-- A Python dict with string keys (the source annotates every dict that
flows through the pipeline as `Dict[str, Any]`). -/
inductive PyDict : Type where
  | nil : PyDict
  | cons : List Char → PyVal → PyDict → PyDict
end

mutual
def beqV : PyVal → PyVal → Bool
  | .none, .none => true
  | .bool a, .bool b => a == b
  | .int a, .int b => a == b
  | .str a, .str b => a == b
  | .list a, .list b => beqL a b
  | .dict a, .dict b => beqD a b
  | _, _ => false
def beqL : PyList → PyList → Bool
  | .nil, .nil => true
  | .cons a as, .cons b bs => beqV a b && beqL as bs
  | _, _ => false
def beqD : PyDict → PyDict → Bool
  | .nil, .nil => true
  | .cons k a as, .cons k2 b bs => k == k2 && beqV a b && beqD as bs
  | _, _ => false
end

mutual
theorem beqV_iff : ∀ a b : PyVal, beqV a b = true ↔ a = b
  | .none, b => by cases b <;> simp [beqV]
  | .bool x, b => by cases b <;> simp [beqV]
  | .int x, b => by cases b <;> simp [beqV]
  | .str x, b => by cases b <;> simp [beqV]
  | .list x, b => by cases b <;> simp [beqV, beqL_iff x]
  | .dict x, b => by cases b <;> simp [beqV, beqD_iff x]
theorem beqL_iff : ∀ a b : PyList, beqL a b = true ↔ a = b
  | .nil, b => by cases b <;> simp [beqL]
  | .cons v vs, b => by cases b <;> simp [beqL, beqV_iff v, beqL_iff vs]
theorem beqD_iff : ∀ a b : PyDict, beqD a b = true ↔ a = b
  | .nil, b => by cases b <;> simp [beqD]
  | .cons k v vs, b => by cases b <;> simp [beqD, beqV_iff v, beqD_iff vs, and_assoc]
end

instance : DecidableEq PyVal := fun a b => decidable_of_iff _ (beqV_iff a b)
instance : DecidableEq PyList := fun a b => decidable_of_iff _ (beqL_iff a b)
instance : DecidableEq PyDict := fun a b => decidable_of_iff _ (beqD_iff a b)

/-- Build a `PyList` from a Lean list (notation helper for inputs). -/
def pyListOf : List PyVal → PyList
  | [] => .nil
  | v :: vs => .cons v (pyListOf vs)

/-- Build a `PyDict` from a Lean association list (notation helper). -/
def pyDictOf : List (List Char × PyVal) → PyDict
  | [] => .nil
  | (k, v) :: kvs => .cons k v (pyDictOf kvs)

/-- View a `PyList` as a Lean list (used to run the Python `for` loops). -/
def PyList.toL : PyList → List PyVal
  | .nil => []
  | .cons v vs => v :: vs.toL


/-! String constants for the dict keys and type/variant strings of the
source (named so the Lean text stays readable). -/

def keyType : List Char := "type".toList
def keyText : List Char := "text".toList
def keyTitle : List Char := "title".toList
def keyContent : List Char := "content".toList
def keyItems : List Char := "items".toList
def keyId : List Char := "id".toList
def keyPrimary : List Char := "primary".toList
def keySecondary : List Char := "secondary".toList
def keyVariant : List Char := "variant".toList
def keyUrl : List Char := "url".toList
def keyAlt : List Char := "alt".toList
def keyWidth : List Char := "width".toList
def keyHeight : List Char := "height".toList
def keyCaption : List Char := "caption".toList
def keyKind : List Char := "kind".toList
def keyIcon : List Char := "icon".toList
def keyLine1 : List Char := "line1".toList
def keyLine2 : List Char := "line2".toList
def keyZh : List Char := "zh".toList
def keyEn : List Char := "en".toList
def keyHeroQuote : List Char := "hero_quote".toList
def tyP : List Char := "p".toList
def tyH1 : List Char := "h1".toList
def tyH2 : List Char := "h2".toList
def tyH3 : List Char := "h3".toList
def tyHr : List Char := "hr".toList
def tyBlockquote : List Char := "blockquote".toList
def tyImageSlot : List Char := "image_slot".toList
def tyInfoCard : List Char := "info_card".toList
def tyTruthList : List Char := "truth_list".toList
def tyIconList : List Char := "icon_list".toList
def tyHighlightBox : List Char := "highlight_box".toList
def varEmphasis : List Char := "emphasis".toList
def varGreen : List Char := "green".toList
def varDashedOutline : List Char := "dashed_outline".toList
def varDarkSolid : List Char := "dark_solid".toList
def kindMyth : List Char := "myth".toList
def kindFact : List Char := "fact".toList
def brTag : List Char := "<br>".toList

/-- `pat` is a prefix of `s` (spelled out so every proof can unfold it). -/
def startsWith : List Char → List Char → Bool
  | [], _ => true
  | _ :: _, [] => false
  | p :: ps, c :: cs => p == c && startsWith ps cs

/-- Python `pat in s` on strings: some position of `s` starts with `pat`. -/
def hasSub (pat : List Char) : List Char → Bool
  | [] => startsWith pat []
  | c :: cs => startsWith pat (c :: cs) || hasSub pat cs

/-- One step bound for `str.replace`; the fuel only has to dominate the
length of the subject string, which `pyReplace` below instantiates. -/
def pyReplaceAux (pat rep : List Char) : Nat → List Char → List Char
  | _, [] => []
  | 0, s => s
  | fuel + 1, c :: cs =>
    if !pat.isEmpty && startsWith pat (c :: cs) then
      rep ++ pyReplaceAux pat rep fuel (List.drop (pat.length - 1) cs)
    else
      c :: pyReplaceAux pat rep fuel cs

/-- Python `s.replace(pat, rep)`: left-to-right, non-overlapping.  (The
source never calls `replace` with an empty pattern.) -/
def pyReplace (pat rep s : List Char) : List Char :=
  pyReplaceAux pat rep s.length s

/-- Python truthiness of a value (`if x:`). -/
def truthy : PyVal → Bool
  | .none => false
  | .bool b => b
  | .int n => !(n == 0)
  | .str s => !s.isEmpty
  | .list .nil => false
  | .list (.cons _ _) => true
  | .dict .nil => false
  | .dict (.cons _ _ _) => true

/-- Python `a or b` (value-returning). -/
def pyOr (a b : PyVal) : PyVal := if truthy a then a else b

/-- Python's type name, as it appears in exception messages. -/
def typeName : PyVal → List Char
  | .none => "NoneType".toList
  | .bool _ => "bool".toList
  | .int _ => "int".toList
  | .str _ => "str".toList
  | .list _ => "list".toList
  | .dict _ => "dict".toList

/-- `_is_str` from the source: `isinstance(x, str)`. -/
def is_str : PyVal → Bool
  | .str _ => true
  | _ => false

/-- `isinstance(x, int)`.  In Python `bool` is a subclass of `int`, so
booleans pass this check too. -/
def is_int : PyVal → Bool
  | .int _ => true
  | .bool _ => true
  | _ => false

/-- `d.get(k, default)` on a string-keyed dict. -/
def dGetD (kvs : PyDict) (k : List Char) (dflt : PyVal) : PyVal :=
  match kvs with
  | .nil => dflt
  | .cons k2 v rest => if k2 = k then v else dGetD rest k dflt

/-- `k in d` on a string-keyed dict. -/
def hasKey (kvs : PyDict) (k : List Char) : Bool :=
  match kvs with
  | .nil => false
  | .cons k2 _ rest => k2 = k || hasKey rest k

/-- Looking a raw `PyVal` key up in a string-keyed dict (`d.get(x)` /
`x in d` where `x` need not be a string): only a string key can hit. -/
def rawGet (kvs : PyDict) (k : PyVal) : PyVal :=
  match k with
  | .str s => dGetD kvs s .none
  | _ => .none

/-- `k in d` for a raw `PyVal` key on a string-keyed dict. -/
def rawHasKey (kvs : PyDict) (k : PyVal) : Bool :=
  match k with
  | .str s => hasKey kvs s
  | _ => false

/-- Escaping of one character inside CPython's `repr` of a string
(common cases: CPython also switches to double quotes when the string
holds a single quote but no double quote, and hex-escapes further
non-printables; no string in this development hits those cases). -/
def reprEscChar (c : Char) : List Char :=
  if c == '\\' then ("\\\\".toList)
  else if c == '\x27' then ("\\\x27".toList)
  else if c == '\n' then ("\\n".toList)
  else if c == '\r' then ("\\r".toList)
  else if c == '\t' then ("\\t".toList)
  else [c]

/-- CPython `repr` of a string (common single-quoted form). -/
def pyReprStr (s : List Char) : List Char :=
  '\x27' :: (s.flatMap reprEscChar ++ ['\x27'])

deriving instance DecidableEq for Except

mutual
/-- CPython `repr` of a value (as used by `str` on lists/dicts). -/
def pyReprOf : PyVal → List Char
  | .none => "None".toList
  | .bool true => "True".toList
  | .bool false => "False".toList
  | .int n => (toString n).toList
  | .str s => pyReprStr s
  | .list xs => '[' :: (pyReprL xs ++ [']'])
  | .dict kvs => "\x7b".toList ++ (pyReprD kvs ++ "\x7d".toList)
def pyReprL : PyList → List Char
  | .nil => []
  | .cons v .nil => pyReprOf v
  | .cons v vs => pyReprOf v ++ ", ".toList ++ pyReprL vs
def pyReprD : PyDict → List Char
  | .nil => []
  | .cons k v .nil => pyReprStr k ++ ": ".toList ++ pyReprOf v
  | .cons k v kvs => pyReprStr k ++ ": ".toList ++ pyReprOf v ++ ", ".toList ++ pyReprD kvs
end

/-- Python `str(x)`. -/
def pyStrOf : PyVal → List Char
  | .str s => s
  | v => pyReprOf v

/-- Digits of a decimal literal, most significant first. -/
def digitsToNat : List Char → Nat → Option Nat
  | [], acc => some acc
  | c :: cs, acc =>
    if c.isDigit then digitsToNat cs (acc * 10 + (c.toNat - 48)) else Option.none

/-- ASCII whitespace stripped by `str.strip()` (and accepted by `int()`). -/
def isSpaceChar (c : Char) : Bool :=
  c == ' ' || c == '\t' || c == '\n' || c == '\r' || c == '\x0b' || c == '\x0c'

/-- Python `s.strip()`. -/
def pyStrip (s : List Char) : List Char :=
  ((s.dropWhile isSpaceChar).reverse.dropWhile isSpaceChar).reverse

/-- Parse `int(<str>)`: optional sign then decimal digits (digit-group
underscores, which no input here uses, are not modelled). -/
def parseIntStr (s : List Char) : Option Int :=
  match pyStrip s with
  | '-' :: d :: ds =>
    if d.isDigit then (digitsToNat (d :: ds) 0).map (fun n => -(n : Int)) else Option.none
  | '+' :: d :: ds =>
    if d.isDigit then (digitsToNat (d :: ds) 0).map (fun n => (n : Int)) else Option.none
  | d :: ds =>
    if d.isDigit then (digitsToNat (d :: ds) 0).map (fun n => (n : Int)) else Option.none
  | [] => Option.none

/-- Python `int(x)` (floats do not occur in `PyVal`; the JSON schema in
`app.py` has none where `int()` is applied). -/
def pyInt : PyVal → Except (List Char) Int
  | .int n => .ok n
  | .bool b => .ok (if b then 1 else 0)
  | .str s =>
    match parseIntStr s with
    | some n => .ok n
    | Option.none => .error ("invalid literal for int() with base 10: ".toList ++ pyReprStr s)
  | v =>
    .error ("int() argument must be a string, a bytes-like object or a real number, not \x27".toList
      ++ typeName v ++ ['\x27'])

/-- Python iteration (`for x in v` / `enumerate(v)`): lists yield their
elements, strings their characters (as 1-char strings), dicts their keys;
everything else raises `TypeError`. -/
def pyIterate : PyVal → Except (List Char) (List PyVal)
  | .list xs => .ok xs.toL
  | .str s => .ok (s.map fun c => .str [c])
  | .dict kvs => .ok (pyKeys kvs)
  | v => .error ('\x27' :: (typeName v ++ "\x27 object is not iterable".toList))
where
  pyKeys : PyDict → List PyVal
    | .nil => []
    | .cons k _ rest => .str k :: pyKeys rest

/-- The first attribute access `v.get(...)` on a non-dict raises
`AttributeError`; on a dict it behaves as `dict.get`. -/
def asDict : PyVal → Except (List Char) PyDict
  | .dict kvs => .ok kvs
  | v => .error ('\x27' :: (typeName v ++ "\x27 object has no attribute \x27get\x27".toList))

/-- Decimal rendering of a `Nat` (f-string `{i}`). -/
def natStr (n : Nat) : List Char := (toString n).toList

/-- Decimal rendering of an `Int` (f-string `{width}` etc.). -/
def intStr (n : Int) : List Char := (toString n).toList

example : hasSub ("ab".toList) ("xxaby".toList) = true := by decide
example : hasSub ("ab".toList) ("xxa".toList) = false := by decide
example : pyReplace ("\\n".toList) ['\n'] ("a\\nb".toList) = ("a\nb".toList) := by decide
example : pyStrOf (.int 5) = "5".toList := by decide
example : pyStrOf (.list (pyListOf [.int 1, .str ("a".toList)])) = ("[1, \x27a\x27]".toList) := by decide
example : pyInt (.str (" 42 ".toList)) = .ok 42 := by decide
example : (pyInt (.str ("abc".toList))).isOk = false := by decide
example : pyStrip ("  a b ".toList) = ("a b".toList) := by decide

/-! ## Text helpers of the renderer (`_escape`, `_normalize_text`,
`_inline_md_to_html`, `_text_with_breaks`) -/

/-- One character of `html.escape(s, quote=True)`. -/
def escChar (c : Char) : List Char :=
  if c == '&' then ("&amp;".toList)
  else if c == '<' then ("&lt;".toList)
  else if c == '>' then ("&gt;".toList)
  else if c == '\x22' then ("&quot;".toList)
  else if c == '\x27' then ("&#x27;".toList)
  else [c]

/-- `_escape`: `html.escape(s, quote=True)`. -/
def escape (s : List Char) : List Char := s.flatMap escChar

/-- The three `replace` calls of `_normalize_text`, on a string:
literal backslash-n to newline, then CRLF to LF, then CR to LF. -/
def normStr (s : List Char) : List Char :=
  pyReplace ['\r'] ['\n'] (pyReplace ['\r', '\n'] ['\n'] (pyReplace ['\\', 'n'] ['\n'] s))

/-- `_normalize_text` from the source: non-strings map to the empty
string, strings get the three `replace` repairs. -/
def normalize_text (v : PyVal) : List Char :=
  match v with
  | .str s => normStr s
  | _ => []

/-- Locate the lazy closing `**` of `re.sub(r"\*\*(.+?)\*\*", ...)`:
given the text after an opening `**`, return the (non-empty,
newline-free) bold span and the rest after the closing `**`. -/
def findBoldClose : List Char → Option (List Char × List Char)
  | [] => Option.none
  | c :: cs =>
    if c == '\n' then Option.none
    else if startsWith ['*', '*'] cs then some ([c], cs.drop 2)
    else
      match findBoldClose cs with
      | some (content, rest) => some (c :: content, rest)
      | Option.none => Option.none

/-- Bold substitution, fuelled by the subject length. -/
def boldSubAux : Nat → List Char → List Char
  | _, [] => []
  | 0, s => s
  | fuel + 1, c :: cs =>
    if startsWith ['*', '*'] (c :: cs) then
      match findBoldClose (cs.drop 1) with
      | some (content, rest) =>
        "<strong>".toList ++ content ++ "</strong>".toList ++ boldSubAux fuel rest
      | Option.none => c :: boldSubAux fuel cs
    else c :: boldSubAux fuel cs

/-- `re.sub(r"\*\*(.+?)\*\*", r"<strong>\1</strong>", s)`: leftmost,
lazy, `.` not matching newline. -/
def boldSub (s : List Char) : List Char := boldSubAux s.length s

/-- `_inline_md_to_html`: normalize, escape, bold. -/
def inline_md_to_html (s : List Char) : List Char := boldSub (escape (normStr s))

/-- `_text_with_breaks`: inline markdown then `\n` → `<br>`. -/
def text_with_breaks (s : List Char) : List Char :=
  pyReplace ['\n'] brTag (inline_md_to_html s)

/-! ## `ArticleValidator` -/

/-- `ValidationReport` from the source (a plain record here; the
`add_error` / `add_warn` methods become the functions below). -/
structure ValidationReport where
  ok : Bool := true
  errors : List (List Char) := []
  warnings : List (List Char) := []
  unknown_block_types : List (List Char) := []
  missing_image_slots : List PyVal := []
  input_has_literal_backslash_n : Bool := false
  input_has_real_newline : Bool := false
deriving DecidableEq

def emptyReport : ValidationReport := {}

/-- `ValidationReport.add_error`. -/
def addError (r : ValidationReport) (m : List Char) : ValidationReport :=
  { r with ok := false, errors := r.errors ++ [m] }

/-- `ValidationReport.add_warn`. -/
def addWarn (r : ValidationReport) (m : List Char) : ValidationReport :=
  { r with warnings := r.warnings ++ [m] }

mutual
/-- `scan_text_fields`: does any string value reachable from `v` contain
`pat` (dict keys are not scanned, matching `for v in x.values()`)? -/
def scanV (pat : List Char) : PyVal → Bool
  | .str s => hasSub pat s
  | .list xs => scanL pat xs
  | .dict kvs => scanD pat kvs
  | _ => false
def scanL (pat : List Char) : PyList → Bool
  | .nil => false
  | .cons v vs => scanV pat v || scanL pat vs
def scanD (pat : List Char) : PyDict → Bool
  | .nil => false
  | .cons _ v kvs => scanV pat v || scanD pat kvs
end

def SUPPORTED_TYPES : List (List Char) :=
  ["p", "h1", "h2", "h3", "hr", "blockquote", "image_slot", "info_card",
   "truth_list", "icon_list", "highlight_box"].map String.toList

/-- `t in SUPPORTED_TYPES` (a Python set of strings: only an equal
string is a member). -/
def isSupportedType (t : PyVal) : Bool :=
  match t with
  | .str s => SUPPORTED_TYPES.any fun x => x == s
  | _ => false

def msgBlockObj (i : Nat) : List Char :=
  "content[".toList ++ natStr i ++ "] must be an object".toList
def msgUnknown (i : Nat) (t : PyVal) : List Char :=
  "Unknown block type at content[".toList ++ natStr i ++ "]: ".toList ++ pyStrOf t
def msgText (i : Nat) (t : PyVal) : List Char :=
  "content[".toList ++ natStr i ++ "].text must be a string for type=".toList ++ pyStrOf t
def msgPrimary (i : Nat) : List Char :=
  "content[".toList ++ natStr i ++ "].primary must be a string for blockquote".toList
def msgSecondary (i : Nat) : List Char :=
  "content[".toList ++ natStr i ++ "].secondary must be a string if provided".toList
def msgId (i : Nat) : List Char :=
  "content[".toList ++ natStr i ++ "].id must be an int for image_slot".toList
def msgCardTitle (i : Nat) : List Char :=
  "content[".toList ++ natStr i ++ "].title must be a string for info_card".toList
def msgCardText (i : Nat) : List Char :=
  "content[".toList ++ natStr i ++ "].text must be a string for info_card".toList
def msgTruthItems (i : Nat) : List Char :=
  "content[".toList ++ natStr i ++ "].items must be a non-empty list for truth_list".toList
def msgIconItems (i : Nat) : List Char :=
  "content[".toList ++ natStr i ++ "].items must be a non-empty list for icon_list".toList
def msgHighText (i : Nat) : List Char :=
  "content[".toList ++ natStr i ++ "].text must be a string for highlight_box".toList
def msgTitleObj : List Char := "article.title must be an object (or omitted)".toList
def msgContentList : List Char := "article.content must be a list".toList
def msgArticleObj : List Char := "article must be an object".toList

/-- The body of the validator's per-block loop (one `i, blk` step). -/
def checkBlock (images : Option PyDict) (i : Nat) (blk : PyVal)
    (r : ValidationReport) : ValidationReport :=
  match blk with
  | .dict bkvs =>
    let t := dGetD bkvs keyType .none
    let r :=
      if isSupportedType t then r
      else addWarn { r with unknown_block_types := r.unknown_block_types ++ [pyStrOf t] }
        (msgUnknown i t)
    let r :=
      if t = .str tyP ∨ t = .str tyH1 ∨ t = .str tyH2
          ∨ t = .str tyH3 then
        if is_str (dGetD bkvs keyText (.str [])) then r else addError r (msgText i t)
      else r
    let r :=
      if t = .str tyBlockquote then
        let r :=
          if is_str (dGetD bkvs keyPrimary (.str [])) then r
          else addError r (msgPrimary i)
        match dGetD bkvs keySecondary .none with
        | .none => r
        | v => if is_str v then r else addError r (msgSecondary i)
      else r
    let r :=
      if t = .str tyImageSlot then
        let slot := dGetD bkvs keyId .none
        if is_int slot then
          match images with
          | Option.none => { r with missing_image_slots := r.missing_image_slots ++ [slot] }
          | some kvs =>
            if !hasKey kvs (pyStrOf slot) && !rawHasKey kvs slot then
              { r with missing_image_slots := r.missing_image_slots ++ [slot] }
            else r
        else addError r (msgId i)
      else r
    let r :=
      if t = .str tyInfoCard then
        let r :=
          if is_str (dGetD bkvs keyTitle (.str [])) then r
          else addError r (msgCardTitle i)
        if is_str (dGetD bkvs keyText (.str [])) then r else addError r (msgCardText i)
      else r
    let r :=
      if t = .str tyTruthList then
        match dGetD bkvs keyItems .none with
        | .list (.cons _ _) => r
        | _ => addError r (msgTruthItems i)
      else r
    let r :=
      if t = .str tyIconList then
        match dGetD bkvs keyItems .none with
        | .list (.cons _ _) => r
        | _ => addError r (msgIconItems i)
      else r
    if t = .str tyHighlightBox then
      if is_str (dGetD bkvs keyText (.str [])) then r else addError r (msgHighText i)
    else r
  | _ => addError r (msgBlockObj i)

/-- The validator's `for i, blk in enumerate(content)` loop. -/
def validateBlocks (images : Option PyDict) : Nat → List PyVal → ValidationReport →
    ValidationReport
  | _, [], r => r
  | i, blk :: rest, r => validateBlocks images (i + 1) rest (checkBlock images i blk r)

/-- `ArticleValidator.validate`. -/
def validate (article : PyVal) (images : Option PyDict) : ValidationReport :=
  match article with
  | .dict akvs =>
    let r := emptyReport
    let r :=
      match dGetD akvs keyTitle .none with
      | .none => r
      | .dict _ => r
      | _ => addError r msgTitleObj
    match dGetD akvs keyContent .none with
    | .list blocks =>
      let r := { r with
        input_has_literal_backslash_n := scanV ['\\', 'n'] article,
        input_has_real_newline := scanV ['\n'] article }
      validateBlocks images 0 blocks.toL r
    | _ => addError r msgContentList
  | _ => addError emptyReport msgArticleObj

/-! ## `HtmlRenderer` -/

/-- `_style_article_container`. -/
def style_article_container : List Char :=
  ("font-family: -apple-system, BlinkMacSystemFont, \x27Segoe UI\x27, Roboto, Helvetica, "
    ++ "Arial, sans-serif;line-height: 1.8;color: #333;max-width: 800px;margin: 0 auto;").toList

/-- The opening container `<div>`. -/
def containerOpen : List Char :=
  "<div style=\"".toList ++ style_article_container ++ "\">".toList

/-- The title section of `HtmlRenderer.render` (lines 252-268). -/
def titleFrags (akvs : PyDict) : List (List Char) :=
  match pyOr (dGetD akvs keyTitle .none) (.dict .nil) with
  | .dict tkvs =>
    let line1 := normStr (pyStrOf (pyOr (dGetD tkvs keyLine1 (.str [])) (.str [])))
    let line2 := normStr (pyStrOf (pyOr (dGetD tkvs keyLine2 (.str [])) (.str [])))
    let full_title :=
      if !line1.isEmpty && !line2.isEmpty then line1 ++ brTag ++ line2
      else if !line1.isEmpty then line1 else line2
    if !full_title.isEmpty then
      [("<h1 style=\"font-weight: 800; margin-bottom: 20px; font-size: 30px; "
          ++ "line-height: 1.4; color: #111;\">").toList
        ++ pyReplace brTag brTag (escape full_title)
        ++ "</h1>".toList]
    else []
  | _ => []

/-- The `hero_quote` section of `HtmlRenderer.render` (lines 271-283). -/
def heroFrags (akvs : PyDict) : List (List Char) :=
  match dGetD akvs keyHeroQuote .none with
  | .dict hkvs =>
    let zh := pyStrip (normStr (pyStrOf (pyOr (dGetD hkvs keyZh (.str [])) (.str []))))
    let en := pyStrip (normStr (pyStrOf (pyOr (dGetD hkvs keyEn (.str [])) (.str []))))
    if !zh.isEmpty || !en.isEmpty then
      [("<div style=\"background-color: #333; color: #fff; padding: 25px; "
          ++ "border-radius: 12px; text-align: center; margin: 30px 0;\">").toList]
      ++ (if !zh.isEmpty then
            ["<h3 style=\"margin: 0 0 10px 0; color: #fff; font-size: 22px;\">「".toList
              ++ escape zh ++ "」</h3>".toList]
          else [])
      ++ (if !en.isEmpty then
            ["<p style=\"margin: 0; font-size: 0.95em; opacity: 0.9;\">".toList
              ++ escape en ++ "</p>".toList]
          else [])
      ++ ["</div>".toList]
    else []
  | _ => []

/-- One item of the `truth_list` loop. -/
def truthItem (it : PyVal) : List (List Char) :=
  match it with
  | .dict ikvs =>
    let kind := pyStrOf (pyOr (dGetD ikvs keyKind (.str [])) (.str []))
    let txt := pyStrip (normStr (pyStrOf (pyOr (dGetD ikvs keyText (.str [])) (.str []))))
    if txt.isEmpty then []
    else if kind = kindMyth then
      [("<li style=\"margin-bottom: 10px; color: #d32f2f; font-weight: bold;\">❌ ").toList
        ++ escape txt ++ "</li>".toList]
    else if kind = kindFact then
      [("<li style=\"margin-bottom: 10px; color: #2e7d32; font-weight: bold;\">✅ ").toList
        ++ escape txt ++ "</li>".toList]
    else
      ["<li style=\"margin-bottom: 10px;\">• ".toList ++ escape txt ++ "</li>".toList]
  | _ => []

def truthItems : List PyVal → List (List Char)
  | [] => []
  | it :: rest => truthItem it ++ truthItems rest

/-- One item of the `icon_list` loop. -/
def iconItem (it : PyVal) : List (List Char) :=
  match it with
  | .dict ikvs =>
    let icon := pyStrip (normStr (pyStrOf (pyOr (dGetD ikvs keyIcon (.str [])) (.str []))))
    let title := pyStrip (normStr (pyStrOf (pyOr (dGetD ikvs keyTitle (.str [])) (.str []))))
    let txt := pyStrip (normStr (pyStrOf (pyOr (dGetD ikvs keyText (.str [])) (.str []))))
    if !(!icon.isEmpty || !title.isEmpty || !txt.isEmpty) then []
    else
      ["<li style=\"display: flex; align-items: flex-start; margin-bottom: 15px;\">".toList,
       "<span style=\"font-size: 24px; margin-right: 15px; line-height: 1;\">".toList
         ++ escape icon ++ "</span>".toList,
       "<div>".toList]
      ++ (if !title.isEmpty then
            ["<strong>".toList ++ escape title ++ "</strong><br>".toList] else [])
      ++ (if !txt.isEmpty then
            ["<span style=\"color: #333;\">".toList ++ text_with_breaks txt ++ "</span>".toList]
          else [])
      ++ ["</div></li>".toList]
  | _ => []

def iconItems : List PyVal → List (List Char)
  | [] => []
  | it :: rest => iconItem it ++ iconItems rest

/-- `_render_block` (the caller has already checked the block is a dict,
so it receives the dict's entries). -/
def render_block (bkvs : PyDict) (images : Option PyDict) :
    Except (List Char) (List (List Char)) :=
  let t := dGetD bkvs keyType .none
  if t = .str tyP then
    let txt := normStr (pyStrOf (pyOr (dGetD bkvs keyText (.str [])) (.str [])))
    .ok ["<p>".toList ++ text_with_breaks txt ++ "</p>".toList]
  else if t = .str tyH1 then
    let txt := normStr (pyStrOf (pyOr (dGetD bkvs keyText (.str [])) (.str [])))
    .ok [("<h1 style=\"font-weight: 800; color: #222; font-size: 24px; "
        ++ "margin-bottom: 20px;\">").toList ++ text_with_breaks txt ++ "</h1>".toList]
  else if t = .str tyH2 then
    let txt := normStr (pyStrOf (pyOr (dGetD bkvs keyText (.str [])) (.str [])))
    .ok [("<h2 style=\"font-weight: 800; color: #222; font-size: 24px; "
        ++ "margin-bottom: 20px;\">").toList ++ text_with_breaks txt ++ "</h2>".toList]
  else if t = .str tyH3 then
    let txt := normStr (pyStrOf (pyOr (dGetD bkvs keyText (.str [])) (.str [])))
    .ok ["<h3 style=\"font-weight: bold; color: #444; margin-top: 30px;\">".toList
        ++ text_with_breaks txt ++ "</h3>".toList]
  else if t = .str tyHr then
    .ok ["<hr style=\"margin: 50px 0; border: 0; border-top: 1px solid #eee;\">".toList]
  else if t = .str tyBlockquote then
    let variant := pyStrOf (pyOr (dGetD bkvs keyVariant (.str varEmphasis))
      (.str varEmphasis))
    let primary := pyStrip (normStr (pyStrOf (pyOr (dGetD bkvs keyPrimary (.str []))
      (.str []))))
    let secondary := pyStrip (normStr (pyStrOf (pyOr (dGetD bkvs keySecondary (.str []))
      (.str []))))
    if variant = varEmphasis then
      .ok ([("<blockquote style=\"border-left: 6px solid #d32f2f; background-color: #fff5f5; "
              ++ "padding: 20px; margin: 30px 0; font-size: 1.1em; "
              ++ "border-radius: 0 8px 8px 0;\">").toList]
        ++ (if !primary.isEmpty then
              ["<strong>「".toList ++ escape primary ++ "」</strong>".toList] else [])
        ++ (if !secondary.isEmpty then
              [("<br><span style=\"font-size: 0.9em; color: #666; margin-top: 10px; "
                  ++ "display: block;\">—— ").toList ++ escape secondary ++ "</span>".toList]
            else [])
        ++ ["</blockquote>".toList])
    else
      .ok (["<blockquote>".toList]
        ++ (if !primary.isEmpty then
              ["<strong>".toList ++ escape primary ++ "</strong>".toList] else [])
        ++ (if !secondary.isEmpty then
              ["<br><span>".toList ++ escape secondary ++ "</span>".toList] else [])
        ++ ["</blockquote>".toList])
  else if t = .str tyImageSlot then
    let slot_id := dGetD bkvs keyId .none
    let key_str := pyStrOf slot_id
    let meta :=
      match images with
      | some kvs =>
        if truthy (.dict kvs) then pyOr (dGetD kvs key_str .none) (rawGet kvs slot_id)
        else .none
      | Option.none => .none
    if !truthy meta then
      .ok ["<!-- IMAGE_SLOT_MISSING id=".toList ++ escape key_str ++ " -->".toList]
    else do
      let mkvs ← asDict meta
      let url := pyStrOf (pyOr (dGetD mkvs keyUrl (.str [])) (.str []))
      let alt := normStr (pyStrOf (pyOr (dGetD mkvs keyAlt (.str [])) (.str [])))
      let width ← pyInt (pyOr (dGetD mkvs keyWidth (.int 1200)) (.int 1200))
      let height ← pyInt (pyOr (dGetD mkvs keyHeight (.int 630)) (.int 630))
      let caption := pyStrip (normStr (pyStrOf (pyOr (dGetD mkvs keyCaption (.str []))
        (.str []))))
      .ok (["<img src=\"".toList ++ escape url ++ "\" width=\"".toList ++ intStr width
              ++ "\" height=\"".toList ++ intStr height ++ "\" alt=\"".toList ++ escape alt
              ++ ("\" style=\"width: 100%; height: auto; border-radius: 10px; "
                  ++ "margin: 30px 0;\">").toList]
        ++ (if !caption.isEmpty then
              [("<p style=\"color: #666; font-size: 0.9em; margin-top: -18px; "
                  ++ "margin-bottom: 18px;\">").toList ++ text_with_breaks caption
                ++ "</p>".toList]
            else []))
  else if t = .str tyInfoCard then
    let variant := pyStrOf (pyOr (dGetD bkvs keyVariant (.str varGreen))
      (.str varGreen))
    let title := pyStrip (normStr (pyStrOf (pyOr (dGetD bkvs keyTitle (.str []))
      (.str []))))
    let txt := pyStrip (normStr (pyStrOf (pyOr (dGetD bkvs keyText (.str [])) (.str []))))
    let card (openTag : List Char) : List (List Char) :=
      [openTag]
      ++ (if !title.isEmpty then
            ["<strong>".toList ++ escape title ++ "</strong><br>".toList] else [])
      ++ (if !txt.isEmpty then [text_with_breaks txt] else [])
      ++ ["</div>".toList]
    if variant = varGreen then
      .ok (card ("<div style=\"background-color: #f1f8e9; padding: 15px; border-radius: 8px; "
          ++ "margin: 20px 0; font-size: 0.95em;\">").toList)
    else if variant = varDashedOutline then
      .ok (card ("<div style=\"border: 2px dashed #ccc; padding: 18px; border-radius: 10px; "
          ++ "margin: 20px 0;\">").toList)
    else
      .ok (card ("<div style=\"padding: 15px; border-radius: 8px; margin: 20px 0; "
          ++ "border: 1px solid #eee;\">").toList)
  else if t = .str tyTruthList then do
    let items ← pyIterate (pyOr (dGetD bkvs keyItems .none) (.list .nil))
    .ok (["<ul style=\"list-style-type: none; padding-left: 0; margin: 15px 0;\">".toList]
      ++ truthItems items ++ ["</ul>".toList])
  else if t = .str tyIconList then do
    let items ← pyIterate (pyOr (dGetD bkvs keyItems .none) (.list .nil))
    .ok (["<ul style=\"list-style: none; padding: 0; margin: 10px 0;\">".toList]
      ++ iconItems items ++ ["</ul>".toList])
  else if t = .str tyHighlightBox then
    let variant := pyStrOf (pyOr (dGetD bkvs keyVariant (.str varDarkSolid))
      (.str varDarkSolid))
    let txt := pyStrip (normStr (pyStrOf (pyOr (dGetD bkvs keyText (.str [])) (.str []))))
    if variant = varDarkSolid then
      .ok [("<div style=\"background-color: #333; color: #fff; padding: 18px 20px; "
          ++ "border-radius: 12px; text-align: center; margin: 30px 0; font-weight: 800; "
          ++ "font-size: 20px;\">").toList ++ text_with_breaks txt ++ "</div>".toList]
    else
      .ok [("<div style=\"border: 2px solid #333; padding: 18px 20px; border-radius: 12px; "
          ++ "text-align: center; margin: 30px 0; font-weight: 800; "
          ++ "font-size: 20px;\">").toList ++ text_with_breaks txt ++ "</div>".toList]
  else
    .ok ["<!-- UNKNOWN_BLOCK type=".toList ++ escape (pyStrOf t) ++ " -->".toList]

/-- The error marker the renderer substitutes when `_render_block`
raises (`render`, lines 295-298). -/
def renderErrMarker (idx : Nat) (t : PyVal) (e : List Char) : List Char :=
  "<!-- RENDER_ERROR idx=".toList ++ natStr idx ++ " type=".toList ++ escape (pyStrOf t)
    ++ " err=".toList ++ escape e ++ " -->".toList

/-- The marker for a non-dict entry of `content` (`render`, line 289). -/
def invalidMarker (idx : Nat) : List Char :=
  "<!-- INVALID_BLOCK content[".toList ++ natStr idx ++ "] not an object -->".toList

/-- One iteration of the renderer's content loop: dict blocks are
rendered inside `try/except`, anything else leaves an INVALID_BLOCK
marker. -/
def blockOut (images : Option PyDict) (idx : Nat) (blk : PyVal) : List (List Char) :=
  match blk with
  | .dict bkvs =>
    match render_block bkvs images with
    | .ok frags => frags
    | .error e => [renderErrMarker idx (dGetD bkvs keyType .none) e]
  | _ => [invalidMarker idx]

/-- The renderer's `for idx, blk in enumerate(content)` loop. -/
def blocksLoop (images : Option PyDict) : Nat → List PyVal → List (List Char)
  | _, [] => []
  | idx, blk :: rest => blockOut images idx blk ++ blocksLoop images (idx + 1) rest

/-- `HtmlRenderer.render` up to the `out` list (before joining):
container, title, hero quote, content loop, closing tag.  Iterating a
non-iterable `content`, like any attribute access on a non-dict
`article`, raises out of the renderer. -/
def renderOut (article : PyVal) (images : Option PyDict) :
    Except (List Char) (List (List Char)) :=
  match article with
  | .dict akvs => do
    let blocks ← pyIterate (dGetD akvs keyContent (.list .nil))
    .ok (containerOpen :: (titleFrags akvs ++ heroFrags akvs
      ++ blocksLoop images 0 blocks ++ ["</div>".toList]))
  | v => .error ('\x27' :: (typeName v ++ "\x27 object has no attribute \x27get\x27".toList))

/-- `HtmlRenderer.render`: join the fragments with newlines, then the
final safety net replacing any leaked literal backslash-n. -/
def render (article : PyVal) (images : Option PyDict) : Except (List Char) (List Char) := do
  let out ← renderOut article images
  let html := List.intercalate ['\n'] out
  .ok (if hasSub ['\\', 'n'] html then pyReplace ['\\', 'n'] ['\n'] html else html)

/-! ## `render_article` (the façade) -/

/-- The `report_dict` built by `render_article` (the wall-clock
`render_ms` field lies outside the embedding and is omitted). -/
structure ReportDict where
  ok : Bool
  errors : List (List Char)
  warnings : List (List Char)
  unknown_block_types : List (List Char)
  missing_image_slots : List PyVal
  input_has_literal_backslash_n : Bool
  input_has_real_newline : Bool
  output_has_literal_backslash_n : Bool
  html_length : Nat
deriving DecidableEq

/-- The warning `render_article` would append if the rendered HTML still
held a literal backslash-n. -/
def outWarnMsg : List Char :=
  "OUTPUT contains literal \x27\\n\x27 (should not happen).".toList

/-- The `if images is None` defaulting at the top of `render_article`. -/
def defaultImgs : Option PyDict → PyDict
  | Option.none => PyDict.nil
  | some kvs => kvs

/-- Lines 529-549 of `render_article`: output sanity check (the check
for a leaked literal backslash-n, best-effort fix, warning) and report
assembly from the validator's report and the rendered HTML. -/
def buildReport (rpt : ValidationReport) (html : List Char) : List Char × ReportDict :=
  let outFlag := hasSub ['\\', 'n'] html
  let warns := if outFlag then rpt.warnings ++ [outWarnMsg] else rpt.warnings
  let html2 := if outFlag then pyReplace ['\\', 'n'] ['\n'] html else html
  (html2,
    { ok := rpt.ok
      errors := rpt.errors
      warnings := warns
      unknown_block_types := rpt.unknown_block_types
      missing_image_slots := rpt.missing_image_slots
      input_has_literal_backslash_n := rpt.input_has_literal_backslash_n
      input_has_real_newline := rpt.input_has_real_newline
      output_has_literal_backslash_n := outFlag
      html_length := html2.length })

/-- `render_article(article, images)`: default the image table, validate,
render, then the output sanity check and report assembly.  An exception
escaping the renderer escapes the façade (there is no `try` here). -/
def render_article (article : PyVal) (images : Option PyDict) :
    Except (List Char) (List Char × ReportDict) :=
  (render article (some (defaultImgs images))).map
    (buildReport (validate article (some (defaultImgs images))))

/-! ## Lemmas about `hasSub` and `pyReplace` -/

theorem hasSub_false_head {pat : List Char} {c : Char} {cs : List Char}
    (h : hasSub pat (c :: cs) = false) : startsWith pat (c :: cs) = false := by
  simp only [hasSub, Bool.or_eq_false_iff] at h
  exact h.1

theorem hasSub_false_tail {pat : List Char} {c : Char} {cs : List Char}
    (h : hasSub pat (c :: cs) = false) : hasSub pat cs = false := by
  simp only [hasSub, Bool.or_eq_false_iff] at h
  exact h.2

theorem hasSub_false_drop {pat : List Char} :
    ∀ (k : Nat) (s : List Char), hasSub pat s = false → hasSub pat (s.drop k) = false
  | 0, _, h => h
  | _ + 1, [], h => h
  | k + 1, _ :: cs, h => hasSub_false_drop k cs (hasSub_false_tail h)

theorem hasSub_false_of_not_mem {p : Char} {ps : List Char} :
    ∀ s : List Char, p ∉ s → hasSub (p :: ps) s = false
  | [], _ => rfl
  | c :: cs, h => by
    have hpc : (p == c) = false :=
      beq_eq_false_iff_ne.mpr fun hh => h (hh ▸ List.mem_cons_self _ _)
    have hcs : p ∉ cs := fun hh => h (List.mem_cons_of_mem _ hh)
    simp [hasSub, startsWith, hpc, hasSub_false_of_not_mem cs hcs]

theorem pyReplaceAux_id_of_hasSub_false {pat rep : List Char} :
    ∀ (fuel : Nat) (s : List Char), hasSub pat s = false → pyReplaceAux pat rep fuel s = s
  | fuel, [], _ => by cases fuel <;> rfl
  | 0, _ :: _, _ => rfl
  | fuel + 1, c :: cs, h => by
    simp [pyReplaceAux, hasSub_false_head h,
      pyReplaceAux_id_of_hasSub_false fuel cs (hasSub_false_tail h)]

theorem pyReplace_id_of_hasSub_false {pat rep s : List Char} (h : hasSub pat s = false) :
    pyReplace pat rep s = s :=
  pyReplaceAux_id_of_hasSub_false s.length s h

theorem cr_not_mem_pyReplaceAux_cr :
    ∀ (fuel : Nat) (s : List Char), s.length ≤ fuel →
      '\r' ∉ pyReplaceAux ['\r'] ['\n'] fuel s
  | _, [], _ => by simp [pyReplaceAux]
  | 0, _ :: _, h => by simp at h
  | fuel + 1, c :: cs, h => by
    have hcs : cs.length ≤ fuel := Nat.succ_le_succ_iff.mp h
    by_cases hc : c = '\r'
    · subst hc
      have heq : pyReplaceAux ['\r'] ['\n'] (fuel + 1) ('\r' :: cs)
          = '\n' :: pyReplaceAux ['\r'] ['\n'] fuel cs := by
        simp [pyReplaceAux, startsWith]
      rw [heq]
      intro hmem
      rcases List.mem_cons.mp hmem with h1 | h1
      · exact absurd h1 (by decide)
      · exact cr_not_mem_pyReplaceAux_cr fuel cs hcs h1
    · have hcb : ('\r' == c) = false := beq_eq_false_iff_ne.mpr (Ne.symm hc)
      have heq : pyReplaceAux ['\r'] ['\n'] (fuel + 1) (c :: cs)
          = c :: pyReplaceAux ['\r'] ['\n'] fuel cs := by
        simp [pyReplaceAux, startsWith, hcb]
      rw [heq]
      intro hmem
      rcases List.mem_cons.mp hmem with h1 | h1
      · exact hc h1.symm
      · exact cr_not_mem_pyReplaceAux_cr fuel cs hcs h1

theorem cr_not_mem_normStr (s : List Char) : '\r' ∉ normStr s :=
  cr_not_mem_pyReplaceAux_cr _ _ le_rfl

theorem pyReplaceAux_nl_head (pat : List Char) :
    ∀ (fuel : Nat) (c : Char) (cs : List Char), 1 ≤ fuel →
      (∃ r, pyReplaceAux pat ['\n'] fuel (c :: cs) = '\n' :: r)
      ∨ (∃ r, pyReplaceAux pat ['\n'] fuel (c :: cs) = c :: r)
  | 0, _, _, h => absurd h (by decide)
  | fuel + 1, c, cs, _ => by
    by_cases hm : (!pat.isEmpty && startsWith pat (c :: cs)) = true
    · exact Or.inl ⟨pyReplaceAux pat ['\n'] fuel (List.drop (pat.length - 1) cs),
        by simp [pyReplaceAux, hm]⟩
    · exact Or.inr ⟨pyReplaceAux pat ['\n'] fuel cs, by simp [pyReplaceAux, hm]⟩

theorem startsWith_n_false (pat : List Char) :
    ∀ (fuel : Nat) (cs : List Char), cs.length ≤ fuel → startsWith ['n'] cs = false →
      startsWith ['n'] (pyReplaceAux pat ['\n'] fuel cs) = false
  | _, [], _, _ => by simp [pyReplaceAux, startsWith]
  | fuel, d :: ds, hlen, hn => by
    have h1 : 1 ≤ fuel := le_trans (by simp) hlen
    have hd : ('n' == d) = false := by simpa [startsWith] using hn
    rcases pyReplaceAux_nl_head pat fuel d ds h1 with ⟨r, hr⟩ | ⟨r, hr⟩
    · rw [hr]
      have : ('n' == '\n') = false := by decide
      simp [startsWith, this]
    · rw [hr]
      simp [startsWith, hd]

theorem hasSub_bn_pyReplaceAux_bn :
    ∀ (fuel : Nat) (s : List Char), s.length ≤ fuel →
      hasSub ['\\', 'n'] (pyReplaceAux ['\\', 'n'] ['\n'] fuel s) = false
  | _, [], _ => by simp [pyReplaceAux, hasSub, startsWith]
  | 0, _ :: _, h => by simp at h
  | fuel + 1, c :: cs, h => by
    have hcs : cs.length ≤ fuel := Nat.succ_le_succ_iff.mp h
    by_cases hm : startsWith ['\\', 'n'] (c :: cs) = true
    · have heq : pyReplaceAux ['\\', 'n'] ['\n'] (fuel + 1) (c :: cs)
          = '\n' :: pyReplaceAux ['\\', 'n'] ['\n'] fuel cs.tail := by
        simp [pyReplaceAux, hm]
      have hlen : cs.tail.length ≤ fuel := by
        rw [List.length_tail]
        exact le_trans (Nat.sub_le _ _) hcs
      rw [heq]
      have hbn : ('\\' == '\n') = false := by decide
      simp [hasSub, startsWith, hbn, hasSub_bn_pyReplaceAux_bn fuel _ hlen]
    · have heq : pyReplaceAux ['\\', 'n'] ['\n'] (fuel + 1) (c :: cs)
          = c :: pyReplaceAux ['\\', 'n'] ['\n'] fuel cs := by
        simp [pyReplaceAux, hm]
      rw [heq]
      have hrec := hasSub_bn_pyReplaceAux_bn fuel cs hcs
      by_cases hc : c = '\\'
      · subst hc
        have hn : startsWith ['n'] cs = false := by
          revert hm
          simp [startsWith]
        have hsw := startsWith_n_false ['\\', 'n'] fuel cs hcs hn
        simp [hasSub, startsWith, hsw, hrec]
      · have hcb : ('\\' == c) = false := beq_eq_false_iff_ne.mpr (Ne.symm hc)
        simp [hasSub, startsWith, hcb, hrec]

theorem hasSub_bn_pyReplaceAux_nl (pat : List Char) :
    ∀ (fuel : Nat) (s : List Char), s.length ≤ fuel →
      hasSub ['\\', 'n'] s = false →
      hasSub ['\\', 'n'] (pyReplaceAux pat ['\n'] fuel s) = false
  | _, [], _, _ => by simp [pyReplaceAux, hasSub, startsWith]
  | 0, _ :: _, h, _ => by simp at h
  | fuel + 1, c :: cs, h, hs => by
    have hcs : cs.length ≤ fuel := Nat.succ_le_succ_iff.mp h
    by_cases hm : (!pat.isEmpty && startsWith pat (c :: cs)) = true
    · have heq : pyReplaceAux pat ['\n'] (fuel + 1) (c :: cs)
          = '\n' :: pyReplaceAux pat ['\n'] fuel (List.drop (pat.length - 1) cs) := by
        simp [pyReplaceAux, hm]
      have hdrop : hasSub ['\\', 'n'] (List.drop (pat.length - 1) cs) = false :=
        hasSub_false_drop _ _ (hasSub_false_tail hs)
      have hlen : (List.drop (pat.length - 1) cs).length ≤ fuel := by
        rw [List.length_drop]
        exact le_trans (Nat.sub_le _ _) hcs
      rw [heq]
      have hbn : ('\\' == '\n') = false := by decide
      simp [hasSub, startsWith, hbn, hasSub_bn_pyReplaceAux_nl pat fuel _ hlen hdrop]
    · have heq : pyReplaceAux pat ['\n'] (fuel + 1) (c :: cs)
          = c :: pyReplaceAux pat ['\n'] fuel cs := by
        simp [pyReplaceAux, hm]
      rw [heq]
      have hrec := hasSub_bn_pyReplaceAux_nl pat fuel cs hcs (hasSub_false_tail hs)
      by_cases hc : c = '\\'
      · subst hc
        have hn : startsWith ['n'] cs = false := by
          have hh := hasSub_false_head hs
          simpa [startsWith] using hh
        have hsw := startsWith_n_false pat fuel cs hcs hn
        simp [hasSub, startsWith, hsw, hrec]
      · have hcb : ('\\' == c) = false := beq_eq_false_iff_ne.mpr (Ne.symm hc)
        simp [hasSub, startsWith, hcb, hrec]

/-- After `_normalize_text` no literal backslash-n remains. -/
theorem hasSub_bn_normStr (s : List Char) : hasSub ['\\', 'n'] (normStr s) = false :=
  hasSub_bn_pyReplaceAux_nl ['\r'] _ _ le_rfl
    (hasSub_bn_pyReplaceAux_nl ['\r', '\n'] _ _ le_rfl
      (hasSub_bn_pyReplaceAux_bn _ _ le_rfl))

/-! ## Claim C10: idempotence of the normalizer -/

/-- **C10** — `normalize` is idempotent.  Proved for *every* string (the
claim's carve-out for author-intended literal backslash-n text is a
subset of this): after one pass no literal backslash-n and no carriage
return remains, so a second pass finds nothing to rewrite. -/
theorem c10_normalize_idempotent (s : List Char) :
    normalize_text (.str (normalize_text (.str s))) = normalize_text (.str s) := by
  have h1 : hasSub ['\\', 'n'] (normStr s) = false := hasSub_bn_normStr s
  have hcr : '\r' ∉ normStr s := cr_not_mem_normStr s
  have h2 : hasSub ['\r', '\n'] (normStr s) = false := hasSub_false_of_not_mem _ hcr
  have h3 : hasSub ['\r'] (normStr s) = false := hasSub_false_of_not_mem _ hcr
  show normStr (normStr s) = normStr s
  calc normStr (normStr s)
      = pyReplace ['\r'] ['\n'] (pyReplace ['\r', '\n'] ['\n']
          (pyReplace ['\\', 'n'] ['\n'] (normStr s))) := rfl
    _ = normStr s := by
        rw [pyReplace_id_of_hasSub_false h1, pyReplace_id_of_hasSub_false h2,
          pyReplace_id_of_hasSub_false h3]

/-! ## Lemmas about the renderer's content loop -/

theorem blocksLoop_append (images : Option PyDict) :
    ∀ (k : Nat) (bs1 bs2 : List PyVal),
      blocksLoop images k (bs1 ++ bs2)
        = blocksLoop images k bs1 ++ blocksLoop images (k + bs1.length) bs2
  | _, [], _ => by simp [blocksLoop]
  | k, b :: bs1, bs2 => by
    have ih := blocksLoop_append images (k + 1) bs1 bs2
    have harith : k + 1 + bs1.length = k + (bs1.length + 1) := by omega
    simp [blocksLoop, ih, List.append_assoc, harith]

theorem blocksLoop_singleton (images : Option PyDict) (k : Nat) (b : PyVal) :
    blocksLoop images k [b] = blockOut images k b := by
  simp [blocksLoop]

theorem renderOut_content_list (akvs : PyDict) (images : Option PyDict) (bl : PyList)
    (hc : dGetD akvs keyContent (.list .nil) = .list bl) :
    renderOut (.dict akvs) images
      = .ok (containerOpen :: (titleFrags akvs ++ heroFrags akvs
          ++ blocksLoop images 0 bl.toL ++ ["</div>".toList])) := by
  have hred : renderOut (.dict akvs) images
      = (pyIterate (dGetD akvs keyContent (.list .nil))).bind (fun blocks =>
          Except.ok (containerOpen :: (titleFrags akvs ++ heroFrags akvs
            ++ blocksLoop images 0 blocks ++ ["</div>".toList]))) := rfl
  rw [hred, hc]
  rfl

/-! ## Claim C2: per-block failure isolation -/

/-- **C2** — for a document whose `content` is a list, an exception from
rendering one (dict) block never escapes `HtmlRenderer.render`: the
renderer still returns the full fragment list, and the failing block's
position holds exactly the RENDER_ERROR comment marker while every
other block contributes its own fragments. -/
theorem c2_per_block_isolation (akvs : PyDict) (images : Option PyDict) (bl : PyList)
    (i : Nat) (bkvs : PyDict) (e : List Char)
    (hc : dGetD akvs keyContent (.list .nil) = .list bl)
    (hb : bl.toL[i]? = some (.dict bkvs))
    (he : render_block bkvs images = .error e) :
    renderOut (.dict akvs) images
      = .ok (containerOpen :: (titleFrags akvs ++ heroFrags akvs
          ++ blocksLoop images 0 bl.toL ++ ["</div>".toList]))
    ∧ blocksLoop images 0 bl.toL
      = blocksLoop images 0 (bl.toL.take i)
        ++ [renderErrMarker i (dGetD bkvs keyType .none) e]
        ++ blocksLoop images (i + 1) (bl.toL.drop (i + 1)) := by
  refine ⟨renderOut_content_list akvs images bl hc, ?_⟩
  obtain ⟨hlt, hgi⟩ := List.getElem?_eq_some_iff.mp hb
  conv_lhs => rw [← List.take_append_drop i bl.toL]
  rw [blocksLoop_append]
  rw [List.drop_eq_getElem_cons hlt, hgi]
  have hlen : (bl.toL.take i).length = i := by
    rw [List.length_take]
    omega
  rw [hlen]
  simp [blocksLoop, blockOut, he]

def wBlkTruthBad : PyDict := pyDictOf [(keyType, .str tyTruthList), (keyItems, .int 3)]

def wListC2 : PyList := pyListOf [.dict wBlkTruthBad, .dict (pyDictOf [(keyType, .str tyHr)])]

def wArtC2 : PyDict := pyDictOf [(keyContent, .list wListC2)]

def errIntIter : List Char := "\x27int\x27 object is not iterable".toList

/-- Witness for C2: a `truth_list` block whose `items` is the integer 3
makes `_render_block` raise `TypeError` from the `for` loop; the sibling
`hr` block still renders, the marker sits at index 0. -/
theorem c2_per_block_isolation_witness :
    (dGetD wArtC2 keyContent (.list .nil) = .list wListC2
      ∧ wListC2.toL[0]? = some (.dict wBlkTruthBad)
      ∧ render_block wBlkTruthBad (some .nil) = .error errIntIter)
    ∧ (renderOut (.dict wArtC2) (some .nil)
        = .ok (containerOpen :: (titleFrags wArtC2 ++ heroFrags wArtC2
            ++ blocksLoop (some .nil) 0 wListC2.toL ++ ["</div>".toList]))
      ∧ blocksLoop (some .nil) 0 wListC2.toL
        = blocksLoop (some .nil) 0 (wListC2.toL.take 0)
          ++ [renderErrMarker 0 (dGetD wBlkTruthBad keyType .none) errIntIter]
          ++ blocksLoop (some .nil) (0 + 1) (wListC2.toL.drop (0 + 1))) :=
  ⟨⟨by decide, by decide, by decide⟩,
    c2_per_block_isolation wArtC2 (some .nil) wListC2 0 wBlkTruthBad errIntIter
      (by decide) (by decide) (by decide)⟩

/-! ## Claim C5: order preservation -/

/-- **C5** — fragments are emitted in input order: the renderer's output
for a list `content` is exactly the content loop's output sandwiched
between the fixed prelude and the closing tag, and the loop is a
homomorphism for concatenation of block sequences (each block, dict or
not, renderable or not, contributes its fragments or marker at its own
position, given by the singleton equation). -/
theorem c5_order_preservation (images : Option PyDict) (akvs : PyDict) (bl : PyList)
    (k : Nat) (b : PyVal) (bs1 bs2 : List PyVal)
    (hc : dGetD akvs keyContent (.list .nil) = .list bl) :
    renderOut (.dict akvs) images
      = .ok (containerOpen :: (titleFrags akvs ++ heroFrags akvs
          ++ blocksLoop images 0 bl.toL ++ ["</div>".toList]))
    ∧ blocksLoop images k (bs1 ++ bs2)
      = blocksLoop images k bs1 ++ blocksLoop images (k + bs1.length) bs2
    ∧ blocksLoop images k [b] = blockOut images k b :=
  ⟨renderOut_content_list akvs images bl hc, blocksLoop_append images k bs1 bs2,
    blocksLoop_singleton images k b⟩

def wListC5 : PyList :=
  pyListOf [.dict (pyDictOf [(keyType, .str tyP), (keyText, .str ("hi".toList))]), .int 7]

def wArtC5 : PyDict := pyDictOf [(keyContent, .list wListC5)]

/-- Witness for C5 at a concrete two-block document (one `p` block, one
non-dict entry). -/
theorem c5_order_preservation_witness :
    dGetD wArtC5 keyContent (.list .nil) = .list wListC5
    ∧ (renderOut (.dict wArtC5) (some .nil)
        = .ok (containerOpen :: (titleFrags wArtC5 ++ heroFrags wArtC5
            ++ blocksLoop (some .nil) 0 wListC5.toL ++ ["</div>".toList]))
      ∧ blocksLoop (some .nil) 2 ([.int 7] ++ [.dict wBlkTruthBad])
        = blocksLoop (some .nil) 2 [.int 7]
          ++ blocksLoop (some .nil) (2 + [PyVal.int 7].length) [.dict wBlkTruthBad]
      ∧ blocksLoop (some .nil) 2 [.int 7] = blockOut (some .nil) 2 (.int 7)) :=
  ⟨by decide,
    c5_order_preservation (some .nil) wArtC5 wListC5 2 (.int 7) [.int 7] [.dict wBlkTruthBad]
      (by decide)⟩

/-! ## Claim C1: the fatal `content`-not-a-list case -/

theorem dGetD_eq_of_ne_default {k : List Char} {d v : PyVal} :
    ∀ kvs : PyDict, dGetD kvs k d = v → v ≠ d → ∀ d', dGetD kvs k d' = v
  | .nil, h, hne, _ => by
    simp [dGetD] at h
    exact absurd h.symm hne
  | .cons k2 w rest, h, hne, d' => by
    by_cases hk : k2 = k
    · simp [dGetD, hk] at h ⊢
      exact h
    · simp [dGetD, hk] at h ⊢
      exact dGetD_eq_of_ne_default rest h hne d'

theorem renderOut_error_of_iterate {akvs : PyDict} {images : Option PyDict} {e : List Char}
    (h : pyIterate (dGetD akvs keyContent (.list .nil)) = .error e) :
    renderOut (.dict akvs) images = .error e := by
  have hred : renderOut (.dict akvs) images
      = (pyIterate (dGetD akvs keyContent (.list .nil))).bind (fun blocks =>
          Except.ok (containerOpen :: (titleFrags akvs ++ heroFrags akvs
            ++ blocksLoop images 0 blocks ++ ["</div>".toList]))) := rfl
  rw [hred, h]
  rfl

theorem render_error_of_renderOut {article : PyVal} {images : Option PyDict} {e : List Char}
    (h : renderOut article images = .error e) :
    render article images = .error e := by
  unfold render
  rw [h]
  rfl

theorem render_article_error_of_render {article : PyVal} {images : Option PyDict}
    {e : List Char} (h : render article (some (defaultImgs images)) = .error e) :
    render_article article images = .error e := by
  unfold render_article
  rw [h]
  rfl

theorem render_article_ok_of_render {article : PyVal} {images : Option PyDict}
    {html : List Char} (h : render article (some (defaultImgs images)) = .ok html) :
    render_article article images
      = .ok (buildReport (validate article (some (defaultImgs images))) html) := by
  unfold render_article
  rw [h]
  rfl

theorem buildReport_snd_ok (rpt : ValidationReport) (html : List Char) :
    (buildReport rpt html).2.ok = rpt.ok := rfl

theorem validate_content_not_list {akvs : PyDict} {images : Option PyDict}
    (hnl : ∀ bl : PyList, dGetD akvs keyContent .none ≠ .list bl) :
    (validate (.dict akvs) images).ok = false
    ∧ msgContentList ∈ (validate (.dict akvs) images).errors := by
  unfold validate
  cases hcontent : dGetD akvs keyContent .none with
  | list bl => exact absurd hcontent (hnl bl)
  | none => simp [addError]
  | bool b => simp [addError]
  | int n => simp [addError]
  | str s => simp [addError]
  | dict kvs => simp [addError]

/-- **C1 (amended)** — when `content` is not a list the validator does
record the fatal error and return early (`ok = false`, the
content-must-be-a-list message is reported), but the façade does *not*
return early: it still calls the renderer, so a non-iterable `content`
(e.g. a number) raises a `TypeError` out of `render_article`, while an
iterable non-list `content` (e.g. a string) yields marker HTML with an
`ok = false` report and no exception. -/
theorem c1_amended (akvs : PyDict) (images : Option PyDict) :
    ((∀ bl : PyList, dGetD akvs keyContent .none ≠ .list bl) →
      (validate (.dict akvs) images).ok = false
      ∧ msgContentList ∈ (validate (.dict akvs) images).errors)
    ∧ (∀ (v : PyVal) (e : List Char), dGetD akvs keyContent (.list .nil) = v →
        pyIterate v = .error e →
        render_article (.dict akvs) images = .error e)
    ∧ (∀ s : List Char, dGetD akvs keyContent (.list .nil) = .str s →
        ∃ (h : List Char) (r : ReportDict),
          render_article (.dict akvs) images = .ok (h, r) ∧ r.ok = false) := by
  refine ⟨?_, ?_, ?_⟩
  · exact validate_content_not_list
  · intro v e hv hiter
    exact render_article_error_of_render
      (render_error_of_renderOut (renderOut_error_of_iterate (hv ▸ hiter)))
  · intro s hv
    have hv0 : dGetD akvs keyContent .none = .str s :=
      dGetD_eq_of_ne_default akvs hv (by intro hh; exact PyVal.noConfusion hh) .none
    have hro : renderOut (.dict akvs) (some (defaultImgs images))
        = .ok (containerOpen :: (titleFrags akvs ++ heroFrags akvs
            ++ blocksLoop (some (defaultImgs images)) 0 (s.map fun c => PyVal.str [c])
            ++ ["</div>".toList])) := by
      have hred : renderOut (.dict akvs) (some (defaultImgs images))
          = (pyIterate (dGetD akvs keyContent (.list .nil))).bind (fun blocks =>
              Except.ok (containerOpen :: (titleFrags akvs ++ heroFrags akvs
                ++ blocksLoop (some (defaultImgs images)) 0 blocks
                ++ ["</div>".toList]))) := rfl
      rw [hred, hv]
      rfl
    have hr : render (.dict akvs) (some (defaultImgs images))
        = .ok (
          if hasSub ['\\', 'n'] (List.intercalate ['\n']
              (containerOpen :: (titleFrags akvs ++ heroFrags akvs
                ++ blocksLoop (some (defaultImgs images)) 0 (s.map fun c => PyVal.str [c])
                ++ ["</div>".toList]))) then
            pyReplace ['\\', 'n'] ['\n'] (List.intercalate ['\n']
              (containerOpen :: (titleFrags akvs ++ heroFrags akvs
                ++ blocksLoop (some (defaultImgs images)) 0 (s.map fun c => PyVal.str [c])
                ++ ["</div>".toList])))
          else List.intercalate ['\n']
              (containerOpen :: (titleFrags akvs ++ heroFrags akvs
                ++ blocksLoop (some (defaultImgs images)) 0 (s.map fun c => PyVal.str [c])
                ++ ["</div>".toList]))) := by
      unfold render
      rw [hro]
      rfl
    refine ⟨_, _, render_article_ok_of_render hr, ?_⟩
    show (validate (.dict akvs) (some (defaultImgs images))).ok = false
    exact (validate_content_not_list
      (fun bl hh => PyVal.noConfusion (hv0.symm.trans hh))).1

def cArtC1 : PyVal := .dict (pyDictOf [(keyContent, .int 5)])

/-- Counterexample for C1 as stated: the document whose `content` is the
number `5` makes the pipeline raise (`enumerate(5)` raises `TypeError`),
so it does not "return early with empty/marker HTML plus a report" and
it does raise to the caller. -/
theorem c1_counterexample :
    render_article cArtC1 (some .nil) = .error errIntIter := by decide

def cArtC1s : PyVal := .dict (pyDictOf [(keyContent, .str ("ab".toList))])

/-- Witness for C1 (amended), exercising all three conjuncts at concrete
inputs: `content = 5` (validator error and raised `TypeError`) and
`content = "ab"` (marker HTML, `ok = false`, no exception). -/
theorem c1_amended_witness :
    ((validate cArtC1 (some .nil)).ok = false
      ∧ msgContentList ∈ (validate cArtC1 (some .nil)).errors)
    ∧ render_article cArtC1 (some .nil) = .error errIntIter
    ∧ (∃ (h : List Char) (r : ReportDict),
        render_article cArtC1s (some .nil) = .ok (h, r) ∧ r.ok = false) :=
  ⟨(c1_amended (pyDictOf [(keyContent, .int 5)]) (some .nil)).1
      (fun bl hh => PyVal.noConfusion
        ((show dGetD (pyDictOf [(keyContent, PyVal.int 5)]) keyContent PyVal.none
            = PyVal.int 5 by decide).symm.trans hh)),
    (c1_amended (pyDictOf [(keyContent, .int 5)]) (some .nil)).2.1 (.int 5) errIntIter
      (by decide) (by decide),
    (c1_amended (pyDictOf [(keyContent, .str ("ab".toList))]) (some .nil)).2.2
      ("ab".toList) (by decide)⟩

/-! ## Claim C3: the output backslash-n safety net and its report flag -/

theorem render_ok_no_bn {article : PyVal} {images : Option PyDict} {h : List Char}
    (hr : render article images = .ok h) : hasSub ['\\', 'n'] h = false := by
  unfold render at hr
  cases hro : renderOut article images with
  | error e =>
    rw [hro] at hr
    exact absurd hr (by simp [Bind.bind, Except.bind])
  | ok out =>
    rw [hro] at hr
    have hr2 : (if hasSub ['\\', 'n'] (List.intercalate ['\n'] out) then
          pyReplace ['\\', 'n'] ['\n'] (List.intercalate ['\n'] out)
        else List.intercalate ['\n'] out) = h := Except.ok.inj hr
    rw [← hr2]
    by_cases hc : hasSub ['\\', 'n'] (List.intercalate ['\n'] out) = true
    · rw [if_pos hc]
      exact hasSub_bn_pyReplaceAux_bn _ _ le_rfl
    · rw [if_neg hc]
      exact Bool.eq_false_iff.mpr hc

/-- **C3 (amended)** — the renderer itself replaces every leaked literal
backslash-n while joining the fragments, so the façade's subsequent
check never fires: in every successful `render_article` result the
returned HTML is free of literal backslash-n, the report's
`output_has_literal_backslash_n` is `false`, and the report's warnings
are exactly the validator's (the output warning is never appended). -/
theorem c3_amended (article : PyVal) (images : Option PyDict) (h : List Char) (r : ReportDict)
    (hra : render_article article images = .ok (h, r)) :
    r.output_has_literal_backslash_n = false
    ∧ r.warnings = (validate article (some (defaultImgs images))).warnings
    ∧ hasSub ['\\', 'n'] h = false := by
  unfold render_article at hra
  cases hr : render article (some (defaultImgs images)) with
  | error e =>
    rw [hr] at hra
    exact absurd hra (by simp [Except.map])
  | ok html =>
    rw [hr] at hra
    have hbn : hasSub ['\\', 'n'] html = false := render_ok_no_bn hr
    have hpair : buildReport (validate article (some (defaultImgs images))) html = (h, r) :=
      Except.ok.inj hra
    simp only [buildReport, hbn, Bool.false_eq_true, if_false, Prod.mk.injEq] at hpair
    obtain ⟨hh, hrr⟩ := hpair
    subst hrr
    exact ⟨rfl, rfl, hh ▸ hbn⟩

def cImgC3 : PyDict :=
  pyDictOf [("1".toList, .dict (pyDictOf [(keyUrl, .str ("a\\nb".toList))]))]

def cArtC3 : PyVal := .dict (pyDictOf
  [(keyContent, .list (pyListOf [.dict (pyDictOf [(keyType, .str tyImageSlot), (keyId, .int 1)])]))])

/-- Counterexample for C3 as stated: an image `url` field (not covered
by normalization) leaks a literal backslash-n into the assembled
fragment; the renderer repairs it, but the returned report does *not*
record the event — `output_has_literal_backslash_n` is `false` and no
warning is present, contradicting the claimed report behavior. -/
theorem c3_counterexample :
    ((match renderOut cArtC3 (some cImgC3) with
      | .ok out => hasSub ['\\', 'n'] (List.intercalate ['\n'] out)
      | .error _ => false)
     && (match render_article cArtC3 (some cImgC3) with
         | .ok (h2, r) =>
           !r.output_has_literal_backslash_n && r.warnings.isEmpty
             && !hasSub ['\\', 'n'] h2
         | .error _ => false)) = true := by decide

def wHtmlC3 : List Char := containerOpen ++ ('\n' :: "</div>".toList)

def wRptC3 : ReportDict :=
  { ok := false
    errors := [msgContentList]
    warnings := []
    unknown_block_types := []
    missing_image_slots := []
    input_has_literal_backslash_n := false
    input_has_real_newline := false
    output_has_literal_backslash_n := false
    html_length := wHtmlC3.length }

/-- Witness for C3 (amended) at the empty document. -/
theorem c3_amended_witness :
    render_article (.dict .nil) (some .nil) = .ok (wHtmlC3, wRptC3)
    ∧ (wRptC3.output_has_literal_backslash_n = false
      ∧ wRptC3.warnings = (validate (.dict .nil) (some (defaultImgs (some .nil)))).warnings
      ∧ hasSub ['\\', 'n'] wHtmlC3 = false) :=
  ⟨by decide, c3_amended (.dict .nil) (some .nil) wHtmlC3 wRptC3 (by decide)⟩

/-! ## Claim C4: the title heading of the concrete two-line-title document -/

def cArtC4 : PyVal := .dict (pyDictOf
  [(keyTitle, .dict (pyDictOf [(keyLine1, .str ['A']), (keyLine2, .str ['B'])])),
   (keyContent, .list (pyListOf [.dict (pyDictOf [(keyType, .str tyHr)])]))])

/-- **C4** (evaluation at the failing input) — rendering
`{title:{line1:"A",line2:"B"}, content:[{type:"hr"}]}` with no images
produces a heading whose body is `A&lt;br&gt;B`, not `A<br>B`: the
combined title is escaped *after* the `<br>` join and the source's
`.replace('<br>', '<br>')` is a no-op, so the joining line-break tag
does not survive as markup.  The heading is still followed immediately
by the horizontal rule. -/
theorem c4_title_br_escaped :
    (match render_article cArtC4 (some .nil) with
     | .ok (h, _) =>
       hasSub (">A&lt;br&gt;B</h1>".toList) h && !hasSub ("A<br>B".toList) h
         && hasSub ("</h1>\n<hr ".toList) h
     | .error _ => false) = true := by decide

/-! ## Claim C9: coercion of non-string inputs by the normalizer -/

/-- Counterexample for C9 as stated: `_normalize_text(5)` returns the
empty string, not the string representation `"5"`. -/
theorem c9_counterexample :
    normalize_text (.int 5) = [] ∧ normalize_text (.int 5) ≠ pyStrOf (.int 5) := by decide

/-- **C9 (amended)** — `_normalize_text` coerces *every* non-string
input (including `None`) to the empty string before the backslash-n and
CR/CRLF repairs, which apply only to strings; it never produces the
string representation of a non-string input.  (Call sites pre-coerce
with `str(...)` themselves.) -/
theorem c9_amended (v : PyVal) (hv : is_str v = false) : normalize_text v = [] := by
  cases v with
  | str s => exact absurd hv (by simp [is_str])
  | none => rfl
  | bool b => rfl
  | int n => rfl
  | list xs => rfl
  | dict kvs => rfl

/-- Witness for C9 (amended) at `None`. -/
theorem c9_amended_witness : is_str PyVal.none = false ∧ normalize_text PyVal.none = [] :=
  ⟨by decide, c9_amended PyVal.none (by decide)⟩

/-! ## Claim C8: missing vs wrong-typed required fields -/

/-- A blockquote block with an explicit `primary` value. -/
def bqBlock (x : PyVal) : PyVal :=
  .dict (pyDictOf [(keyType, .str tyBlockquote), (keyPrimary, x)])

/-- A blockquote block with no `primary` key at all. -/
def bqMissing : PyVal := .dict (pyDictOf [(keyType, .str tyBlockquote)])

/-- A document whose `content` is the given block list. -/
def artOfBlocks (bs : List PyVal) : PyVal :=
  .dict (pyDictOf [(keyContent, .list (pyListOf bs))])

/-- Counterexample for C8 as stated: a `blockquote` block *missing* its
`primary` field validates cleanly — `blk.get("primary", "")` defaults to
the empty string, which is a string — so `ok` stays `true` and no error
references the block, contradicting the claim that a missing required
field is a fatal error. -/
theorem c8_counterexample :
    (validate (artOfBlocks [bqMissing]) (some .nil)).ok = true
    ∧ (validate (artOfBlocks [bqMissing]) (some .nil)).errors = [] := by decide

/-- A block of the given type with an explicit `text` value (covers the
required `text` of `p`/`h1`/`h2`/`h3`/`highlight_box`). -/
def textBlock (t : List Char) (x : PyVal) : PyVal :=
  .dict (pyDictOf [(keyType, .str t), (keyText, x)])

/-- A block carrying only its `type` (every required field missing). -/
def typeOnlyBlock (t : List Char) : PyVal := .dict (pyDictOf [(keyType, .str t)])

/-- An `info_card` block with an explicit `title` value, `text` missing. -/
def infoTitleBlock (x : PyVal) : PyVal :=
  .dict (pyDictOf [(keyType, .str tyInfoCard), (keyTitle, x)])

/-- An `info_card` block with an explicit `text` value, `title` missing. -/
def infoTextBlock (x : PyVal) : PyVal :=
  .dict (pyDictOf [(keyType, .str tyInfoCard), (keyText, x)])

/-- **C8 (amended)** — for *every* required string field (`text` of
`p`/`h1`/`h2`/`h3`/`highlight_box`, `title` and `text` of `info_card`,
`primary` of `blockquote`), only a field that is *present with a
non-string value* (explicit `null` included) is a fatal validation
error: `ok` flips to false and the error message references the block's
index, while validation of subsequent blocks continues (two bad
blockquotes yield the two indexed messages in order).  A *missing*
required field defaults to the empty string and passes: each type-only
block validates with `ok = true` and no errors. -/
theorem c8_amended (v w : PyVal) (images : Option PyDict)
    (hv : is_str v = false) (hw : is_str w = false) :
    ((validate (artOfBlocks [bqBlock v, bqBlock w]) images).ok = false
      ∧ (validate (artOfBlocks [bqBlock v, bqBlock w]) images).errors
          = [msgPrimary 0, msgPrimary 1])
    ∧ ((validate (artOfBlocks [bqMissing]) images).ok = true
      ∧ (validate (artOfBlocks [bqMissing]) images).errors = [])
    ∧ ((validate (artOfBlocks [textBlock tyP v]) images).ok = false
      ∧ (validate (artOfBlocks [textBlock tyP v]) images).errors = [msgText 0 (.str tyP)])
    ∧ ((validate (artOfBlocks [textBlock tyH1 v]) images).ok = false
      ∧ (validate (artOfBlocks [textBlock tyH1 v]) images).errors = [msgText 0 (.str tyH1)])
    ∧ ((validate (artOfBlocks [textBlock tyH2 v]) images).ok = false
      ∧ (validate (artOfBlocks [textBlock tyH2 v]) images).errors = [msgText 0 (.str tyH2)])
    ∧ ((validate (artOfBlocks [textBlock tyH3 v]) images).ok = false
      ∧ (validate (artOfBlocks [textBlock tyH3 v]) images).errors = [msgText 0 (.str tyH3)])
    ∧ ((validate (artOfBlocks [textBlock tyHighlightBox v]) images).ok = false
      ∧ (validate (artOfBlocks [textBlock tyHighlightBox v]) images).errors
          = [msgHighText 0])
    ∧ ((validate (artOfBlocks [infoTitleBlock v]) images).ok = false
      ∧ (validate (artOfBlocks [infoTitleBlock v]) images).errors = [msgCardTitle 0])
    ∧ ((validate (artOfBlocks [infoTextBlock v]) images).ok = false
      ∧ (validate (artOfBlocks [infoTextBlock v]) images).errors = [msgCardText 0])
    ∧ ((validate (artOfBlocks [typeOnlyBlock tyP]) images).ok = true
      ∧ (validate (artOfBlocks [typeOnlyBlock tyP]) images).errors = [])
    ∧ ((validate (artOfBlocks [typeOnlyBlock tyH1]) images).ok = true
      ∧ (validate (artOfBlocks [typeOnlyBlock tyH1]) images).errors = [])
    ∧ ((validate (artOfBlocks [typeOnlyBlock tyH2]) images).ok = true
      ∧ (validate (artOfBlocks [typeOnlyBlock tyH2]) images).errors = [])
    ∧ ((validate (artOfBlocks [typeOnlyBlock tyH3]) images).ok = true
      ∧ (validate (artOfBlocks [typeOnlyBlock tyH3]) images).errors = [])
    ∧ ((validate (artOfBlocks [typeOnlyBlock tyHighlightBox]) images).ok = true
      ∧ (validate (artOfBlocks [typeOnlyBlock tyHighlightBox]) images).errors = [])
    ∧ ((validate (artOfBlocks [typeOnlyBlock tyInfoCard]) images).ok = true
      ∧ (validate (artOfBlocks [typeOnlyBlock tyInfoCard]) images).errors = []) := by
  and_intros <;>
    simp +decide [validate, validateBlocks, checkBlock, bqBlock, bqMissing, textBlock,
      typeOnlyBlock, infoTitleBlock, infoTextBlock, artOfBlocks,
      pyDictOf, pyListOf, PyList.toL, dGetD, addError, addWarn, emptyReport,
      isSupportedType, SUPPORTED_TYPES, hv, hw]

/-- Witness for C8 (amended) with the wrong-typed values `1` and `null`. -/
theorem c8_amended_witness :
    (is_str (PyVal.int 1) = false ∧ is_str PyVal.none = false)
    ∧ (((validate (artOfBlocks [bqBlock (.int 1), bqBlock .none]) (some .nil)).ok = false
        ∧ (validate (artOfBlocks [bqBlock (.int 1), bqBlock .none]) (some .nil)).errors
            = [msgPrimary 0, msgPrimary 1])
      ∧ ((validate (artOfBlocks [bqMissing]) (some .nil)).ok = true
        ∧ (validate (artOfBlocks [bqMissing]) (some .nil)).errors = [])
      ∧ ((validate (artOfBlocks [textBlock tyP (.int 1)]) (some .nil)).ok = false
        ∧ (validate (artOfBlocks [textBlock tyP (.int 1)]) (some .nil)).errors
            = [msgText 0 (.str tyP)])
      ∧ ((validate (artOfBlocks [textBlock tyH1 (.int 1)]) (some .nil)).ok = false
        ∧ (validate (artOfBlocks [textBlock tyH1 (.int 1)]) (some .nil)).errors
            = [msgText 0 (.str tyH1)])
      ∧ ((validate (artOfBlocks [textBlock tyH2 (.int 1)]) (some .nil)).ok = false
        ∧ (validate (artOfBlocks [textBlock tyH2 (.int 1)]) (some .nil)).errors
            = [msgText 0 (.str tyH2)])
      ∧ ((validate (artOfBlocks [textBlock tyH3 (.int 1)]) (some .nil)).ok = false
        ∧ (validate (artOfBlocks [textBlock tyH3 (.int 1)]) (some .nil)).errors
            = [msgText 0 (.str tyH3)])
      ∧ ((validate (artOfBlocks [textBlock tyHighlightBox (.int 1)]) (some .nil)).ok = false
        ∧ (validate (artOfBlocks [textBlock tyHighlightBox (.int 1)]) (some .nil)).errors
            = [msgHighText 0])
      ∧ ((validate (artOfBlocks [infoTitleBlock (.int 1)]) (some .nil)).ok = false
        ∧ (validate (artOfBlocks [infoTitleBlock (.int 1)]) (some .nil)).errors
            = [msgCardTitle 0])
      ∧ ((validate (artOfBlocks [infoTextBlock (.int 1)]) (some .nil)).ok = false
        ∧ (validate (artOfBlocks [infoTextBlock (.int 1)]) (some .nil)).errors
            = [msgCardText 0])
      ∧ ((validate (artOfBlocks [typeOnlyBlock tyP]) (some .nil)).ok = true
        ∧ (validate (artOfBlocks [typeOnlyBlock tyP]) (some .nil)).errors = [])
      ∧ ((validate (artOfBlocks [typeOnlyBlock tyH1]) (some .nil)).ok = true
        ∧ (validate (artOfBlocks [typeOnlyBlock tyH1]) (some .nil)).errors = [])
      ∧ ((validate (artOfBlocks [typeOnlyBlock tyH2]) (some .nil)).ok = true
        ∧ (validate (artOfBlocks [typeOnlyBlock tyH2]) (some .nil)).errors = [])
      ∧ ((validate (artOfBlocks [typeOnlyBlock tyH3]) (some .nil)).ok = true
        ∧ (validate (artOfBlocks [typeOnlyBlock tyH3]) (some .nil)).errors = [])
      ∧ ((validate (artOfBlocks [typeOnlyBlock tyHighlightBox]) (some .nil)).ok = true
        ∧ (validate (artOfBlocks [typeOnlyBlock tyHighlightBox]) (some .nil)).errors = [])
      ∧ ((validate (artOfBlocks [typeOnlyBlock tyInfoCard]) (some .nil)).ok = true
        ∧ (validate (artOfBlocks [typeOnlyBlock tyInfoCard]) (some .nil)).errors = [])) :=
  ⟨⟨by decide, by decide⟩,
    c8_amended (.int 1) .none (some .nil) (by decide) (by decide)⟩

/-! ## Claim C7: unknown block types -/

/-- **C7** — a block whose `type` is outside the supported set yields
exactly one HTML comment fragment naming `str(type)` from the renderer
(no exception, nothing dropped), and validating a document holding just
that block records `str(type)` in `unknown_block_types` with the
indexed warning, no error, and `ok` still `true`. -/
theorem c7_unknown_block (bkvs : PyDict) (images imgs2 : Option PyDict)
    (hsup : isSupportedType (dGetD bkvs keyType .none) = false) :
    render_block bkvs images
      = .ok ["<!-- UNKNOWN_BLOCK type=".toList
          ++ escape (pyStrOf (dGetD bkvs keyType .none)) ++ " -->".toList]
    ∧ (validate (artOfBlocks [.dict bkvs]) imgs2).unknown_block_types
        = [pyStrOf (dGetD bkvs keyType .none)]
    ∧ (validate (artOfBlocks [.dict bkvs]) imgs2).warnings
        = [msgUnknown 0 (dGetD bkvs keyType .none)]
    ∧ (validate (artOfBlocks [.dict bkvs]) imgs2).errors = []
    ∧ (validate (artOfBlocks [.dict bkvs]) imgs2).ok = true := by
  have h1 : dGetD bkvs keyType .none ≠ .str tyP :=
    fun hh => absurd (hh ▸ hsup) (by decide)
  have h2 : dGetD bkvs keyType .none ≠ .str tyH1 :=
    fun hh => absurd (hh ▸ hsup) (by decide)
  have h3 : dGetD bkvs keyType .none ≠ .str tyH2 :=
    fun hh => absurd (hh ▸ hsup) (by decide)
  have h4 : dGetD bkvs keyType .none ≠ .str tyH3 :=
    fun hh => absurd (hh ▸ hsup) (by decide)
  have h5 : dGetD bkvs keyType .none ≠ .str tyHr :=
    fun hh => absurd (hh ▸ hsup) (by decide)
  have h6 : dGetD bkvs keyType .none ≠ .str tyBlockquote :=
    fun hh => absurd (hh ▸ hsup) (by decide)
  have h7 : dGetD bkvs keyType .none ≠ .str tyImageSlot :=
    fun hh => absurd (hh ▸ hsup) (by decide)
  have h8 : dGetD bkvs keyType .none ≠ .str tyInfoCard :=
    fun hh => absurd (hh ▸ hsup) (by decide)
  have h9 : dGetD bkvs keyType .none ≠ .str tyTruthList :=
    fun hh => absurd (hh ▸ hsup) (by decide)
  have h10 : dGetD bkvs keyType .none ≠ .str tyIconList :=
    fun hh => absurd (hh ▸ hsup) (by decide)
  have h11 : dGetD bkvs keyType .none ≠ .str tyHighlightBox :=
    fun hh => absurd (hh ▸ hsup) (by decide)
  refine ⟨?_, ?_⟩
  · simp [render_block, h1, h2, h3, h4, h5, h6, h7, h8, h9, h10, h11]
  · simp +decide [validate, validateBlocks, checkBlock, artOfBlocks, pyDictOf, pyListOf,
      PyList.toL, dGetD, addWarn, addError, emptyReport, hsup,
      h1, h2, h3, h4, h6, h7, h8, h9, h10, h11]

def cBlkC7 : PyDict := pyDictOf [(keyType, .str ("mystery".toList))]

/-- Witness for C7 at the block `{type:"mystery"}`. -/
theorem c7_unknown_block_witness :
    isSupportedType (dGetD cBlkC7 keyType .none) = false
    ∧ (render_block cBlkC7 (some .nil)
        = .ok ["<!-- UNKNOWN_BLOCK type=".toList
            ++ escape (pyStrOf (dGetD cBlkC7 keyType .none)) ++ " -->".toList]
      ∧ (validate (artOfBlocks [.dict cBlkC7]) (some .nil)).unknown_block_types
          = [pyStrOf (dGetD cBlkC7 keyType .none)]
      ∧ (validate (artOfBlocks [.dict cBlkC7]) (some .nil)).warnings
          = [msgUnknown 0 (dGetD cBlkC7 keyType .none)]
      ∧ (validate (artOfBlocks [.dict cBlkC7]) (some .nil)).errors = []
      ∧ (validate (artOfBlocks [.dict cBlkC7]) (some .nil)).ok = true) :=
  ⟨by decide, c7_unknown_block cBlkC7 (some .nil) (some .nil) (by decide)⟩

/-! ## Claim C6: image_slot blocks with a non-integer id -/

theorem pyOr_str_empty (u : List Char) : pyOr (.str u) (.str []) = .str u := by
  by_cases hu : u.isEmpty
  · rw [List.isEmpty_iff.mp hu]
    decide
  · simp [pyOr, truthy, hu]

/-- The `<img>` fragment the renderer emits for a resolved slot whose
metadata holds only a `url` (defaults for width/height, empty alt, no
caption). -/
def imgTagOf (u : List Char) : List Char :=
  "<img src=\"".toList ++ escape u ++ "\" width=\"".toList ++ intStr 1200
    ++ "\" height=\"".toList ++ intStr 630 ++ "\" alt=\"".toList
    ++ ("\" style=\"width: 100%; height: auto; border-radius: 10px; "
        ++ "margin: 30px 0;\">").toList

/-- An image_slot block with the given `id` value. -/
def slotBlock (v : PyVal) : PyDict :=
  pyDictOf [(keyType, .str tyImageSlot), (keyId, v)]

/-- An image table mapping one string key to a url-only metadata dict. -/
def urlOnlyImages (k u : List Char) : PyDict :=
  pyDictOf [(k, .dict (pyDictOf [(keyUrl, .str u)]))]

/-- **C6 (amended)** — a non-integer `image_slot` id is indeed a
validation error (`ok` flips false, the indexed message is recorded) and
the *validator* never consults the image table for it
(`missing_image_slots` stays empty); but the claim's "never looked up
anywhere in the pipeline" fails: the *renderer* still stringifies the id,
looks it up, and emits an `<img>` when the table resolves it. -/
theorem c6_amended (v : PyVal) (u : List Char) (images : Option PyDict)
    (hv : is_int v = false) :
    ((validate (artOfBlocks [.dict (slotBlock v)]) images).ok = false
      ∧ (validate (artOfBlocks [.dict (slotBlock v)]) images).errors = [msgId 0]
      ∧ (validate (artOfBlocks [.dict (slotBlock v)]) images).missing_image_slots = [])
    ∧ render_block (slotBlock v) (some (urlOnlyImages (pyStrOf v) u))
      = .ok [imgTagOf u] := by
  constructor
  · simp +decide [validate, validateBlocks, checkBlock, artOfBlocks, slotBlock,
      pyDictOf, pyListOf, PyList.toL, dGetD, addWarn, addError, emptyReport,
      isSupportedType, SUPPORTED_TYPES, hv]
  · simp +decide [render_block, slotBlock, urlOnlyImages, pyDictOf, dGetD, truthy,
      pyOr_str_empty, imgTagOf, asDict, pyInt, pyOr, pyStrOf, Bind.bind, Except.bind,
      intStr, escape, normStr, pyStrip, pyReplace, pyReplaceAux]
    by_cases hu : u = []
    · subst hu
      decide
    · simp [hu]

def cImgC6 : PyDict :=
  pyDictOf [("7".toList, .dict (pyDictOf [(keyUrl, .str ("http://x/i.png".toList))]))]

def cBlkC6 : PyDict := pyDictOf [(keyType, .str tyImageSlot), (keyId, .str ['7'])]

def cArtC6 : PyVal := .dict (pyDictOf [(keyContent, .list (pyListOf [.dict cBlkC6]))])

/-- Counterexample for C6 as stated: an `image_slot` whose id is the
string `"7"` is a validation error (`ok = false`), yet the renderer
looks the id up in the image table and emits the `<img>` tag carrying
the table's url — so the id *is* looked up in the pipeline. -/
theorem c6_counterexample :
    (validate cArtC6 (some cImgC6)).ok = false
    ∧ (validate cArtC6 (some cImgC6)).missing_image_slots = []
    ∧ render_block cBlkC6 (some cImgC6)
      = .ok [("<img src=\"http://x/i.png\" width=\"1200\" height=\"630\" alt=\"\" "
          ++ "style=\"width: 100%; height: auto; border-radius: 10px; "
          ++ "margin: 30px 0;\">").toList] := by decide

/-- Witness for C6 (amended) with id `"9"` and a matching string key. -/
theorem c6_amended_witness :
    is_int (PyVal.str ['9']) = false
    ∧ (((validate (artOfBlocks [.dict (slotBlock (.str ['9']))]) (some .nil)).ok = false
        ∧ (validate (artOfBlocks [.dict (slotBlock (.str ['9']))]) (some .nil)).errors
            = [msgId 0]
        ∧ ValidationReport.missing_image_slots
            (validate (artOfBlocks [.dict (slotBlock (.str ['9']))]) (some .nil)) = [])
      ∧ render_block (slotBlock (.str ['9']))
          (some (urlOnlyImages (pyStrOf (.str ['9'])) ("u.png".toList)))
        = .ok [imgTagOf ("u.png".toList)]) :=
  ⟨by decide, c6_amended (.str ['9']) ("u.png".toList) (some .nil) (by decide)⟩
